import Mathlib

/-!
Verification of the Ricky-Dashboard export/dedupe/pagination logic.

The repository is a React admin dashboard over a Firestore-like document
store.  The logic verified here is shallowly embedded from the source files:

* `src/src/Dashboard.js` — the main dashboard: `formatPhoneNumber`,
  `extractGB`, `fetchNumbers` (cursor pagination with a page cache),
  `handleDownloadNumbers` / `handleDownloadUssd` (chunked export with
  batch flag writes), `openConfirmDialog` (confirmation-dialog record
  count), and the realtime variant's `downloadExcel`.
* `src/src/components/UssdTransactionsTab.js` — the `getKey` /
  `uniqueTx` first-seen deduplication filter.
* `src/unnamed/part_000` — the second dashboard variant with its own
  `extractGB` (first digit only).

Firestore is modelled as an in-memory list of records given in query
order; a pagination cursor is the index (in the filtered, ordered result
set) of the last document of the previously fetched page, matching
`startAfter(lastDoc)` semantics.  Spreadsheet serialization is treated as
a pure rows-in/file-out boundary, so a produced file is modelled by the
row list handed to the serializer.
-/

namespace RickyDashboard

/-! ## Configuration constants (Dashboard.js lines 81-83) -/

def pageSize : Nat := 6

def maxExportRecords : Nat := 1000

def batchSize : Nat := 500

/-! ## Phone number formatting (Dashboard.js lines 31-37)

`formatPhoneNumber` does `number.replace(/^233/, "")`, then prepends `"0"`
when the cleaned number has length 9, falling back to `"N/A"` for falsy
values.  `strip233` is the `replace(/^233/, "")` step: the anchored regex
removes at most one leading literal `"233"`. -/

def strip233 (s : String) : String :=
  match s.data with
  | '2' :: '3' :: '3' :: rest => String.mk rest
  | _ => s

def formatPhoneNumber (s : String) : String :=
  if s = "" then "N/A"
  else if (strip233 s).length = 9 then "0" ++ strip233 s
  else if strip233 s = "" then "N/A"
  else strip233 s

/-! ## Plan-size extraction

Three variants exist in the source:

* `Dashboard.js` lines 24-28: `desc.match(/(\d+)GB/)` — case-sensitive
  uppercase `GB` suffix required; the capture is the maximal digit run at
  the leftmost position where the run is immediately followed by `"GB"`.
* the tab components: the same regex with the `/i` flag (case-insensitive).
* `part_000` lines 26-31: `desc.match(/(\d)/i)` — just the first digit
  character, upper-cased (a no-op on digits).
-/

/-- `true` iff the list starts with the two characters `G`, `B` (the
case-sensitive suffix test of `Dashboard.js`'s `/(\d+)GB/`). -/
def startsGB : List Char → Bool
  | g :: b :: _ => g == 'G' && b == 'B'
  | _ => false

/-- `true` iff the list starts with `GB` matched case-insensitively (the
`/(\d+)GB/i` suffix test of the tab components). -/
def startsGBci : List Char → Bool
  | g :: b :: _ => (g == 'G' || g == 'g') && (b == 'B' || b == 'b')
  | _ => false

/-- Leftmost match of `/(\d+)GB/`: at each position, the greedy digit run
must be immediately followed by `"GB"`; on failure the scan restarts one
character later, exactly as the JS regex engine does. -/
def gbMatch : List Char → Option (List Char)
  | [] => none
  | c :: cs =>
    if c.isDigit && startsGB (List.dropWhile Char.isDigit (c :: cs)) then
      some (List.takeWhile Char.isDigit (c :: cs))
    else gbMatch cs

/-- Leftmost match of `/(\d+)GB/i` (tab-component variant). -/
def gbMatchCi : List Char → Option (List Char)
  | [] => none
  | c :: cs =>
    if c.isDigit && startsGBci (List.dropWhile Char.isDigit (c :: cs)) then
      some (List.takeWhile Char.isDigit (c :: cs))
    else gbMatchCi cs

/-- `extractGB` of `Dashboard.js` lines 24-28 (case-sensitive `GB`). -/
def extractGB (desc : String) : String :=
  if desc = "" then "N/A"
  else
    match gbMatch desc.data with
    | some ds => String.mk ds
    | none => "N/A"

/-- `extractGB` of the tab components (`/(\d+)GB/i`, case-insensitive). -/
def extractGBci (desc : String) : String :=
  if desc = "" then "N/A"
  else
    match gbMatchCi desc.data with
    | some ds => String.mk ds
    | none => "N/A"

/-- First digit of the string, if any (`part_000`'s `desc.match(/(\d)/i)`). -/
def firstDigit : List Char → Option Char
  | [] => none
  | c :: cs => if c.isDigit then some c else firstDigit cs

/-- `extractGB` of `part_000` lines 26-31: first digit character,
upper-cased (`match[1].toUpperCase()`). -/
def extractGBFirstDigit (desc : String) : String :=
  if desc = "" then "N/A"
  else
    match firstDigit desc.data with
    | some c => String.mk [c.toUpper]
    | none => "N/A"

/-- The plan-size extraction described by the spec's words: the first
integer immediately followed by the unit suffix `GB` matched
case-insensitively, else `"N/A"`.  Used only to compare the source
implementations against the claimed behaviour. -/
def specExtractGB (desc : String) : String :=
  if desc = "" then "N/A"
  else
    match gbMatchCi desc.data with
    | some ds => String.mk ds
    | none => "N/A"

/-! ## USSD / transaction records, deduplication and grouping

`UssdTransactionsTab.js` lines 16-37: `getKey(tx) = tx.externalRef || tx.id`
and `uniqueTx` keeps the first-seen record per key.  The export handlers in
`Dashboard.js` / `part_000` fetch pending records with
`where(status == "approved")`, `where(exported == false)`,
`limit(maxExportRecords)` and flag every fetched document. -/

structure URec where
  id : String
  externalRef : String
  status : String
  exported : Bool
deriving DecidableEq

/-- `getKey` of `UssdTransactionsTab.js` line 16: `tx.externalRef || tx.id`
(an empty/absent `externalRef` is falsy in JS). -/
def getKey (r : URec) : String :=
  if r.externalRef = "" then r.id else r.externalRef

/-- The body of `uniqueTx` (`UssdTransactionsTab.js` lines 29-37): filter
keeping the first record whose key has not been seen yet. -/
def uniqueTxAux (seen : List String) : List URec → List URec
  | [] => []
  | r :: rs =>
    if getKey r ∈ seen then uniqueTxAux seen rs
    else r :: uniqueTxAux (getKey r :: seen) rs

def uniqueTx (l : List URec) : List URec := uniqueTxAux [] l

/-- First-seen-order list of distinct keys occurring in `l` (the key set
the dedup filter iterates over). -/
def keysAux (seen : List String) : List URec → List String
  | [] => []
  | r :: rs =>
    if getKey r ∈ seen then keysAux seen rs
    else getKey r :: keysAux (getKey r :: seen) rs

def keysOf (l : List URec) : List String := keysAux [] l

/-- The record groups of a list: one group per distinct key (first-seen
order), members sharing that key.  This is the Deduplication & Grouping
Engine's partition, built on the source's `getKey`. -/
def groupsOf (l : List URec) : List (String × List URec) :=
  (keysOf l).map fun k => (k, l.filter fun r => getKey r == k)

/-- The query filter of `handleDownloadUssd` / `fetchTotalUssd`:
`status == "approved" && exported == false`, in store order. -/
def pendingUssd (store : List URec) : List URec :=
  store.filter fun r => r.status == "approved" && !r.exported

/-- The documents fetched by `handleDownloadUssd` (`Dashboard.js` lines
417-424): the pending query limited to `maxExportRecords`. -/
def exportUssdDocs (store : List URec) : List URec :=
  (pendingUssd store).take maxExportRecords

/-- The set of document ids `handleDownloadUssd` writes `exported = true`
to (lines 432-441): every fetched document's id, in chunks of 500. -/
def exportUssdFlagged (store : List URec) : List String :=
  (exportUssdDocs store).map (·.id)

/-- `openConfirmDialog` (`Dashboard.js` lines 480-489, `part_000` lines
434-444): the dialog's `recordCount` is `querySnapshot.docs.length` of the
same pending query limited to `maxExportRecords` — the raw row count. -/
def openConfirmCountUssd (store : List URec) : Nat :=
  (exportUssdDocs store).length

/-- Three raw records sharing `correlationKey`/`externalRef` `"R1"`, all
`approved` and not yet exported (the spec's duplicate-collapse scenario). -/
def ussdScenario : List URec :=
  [⟨"a", "R1", "approved", false⟩,
   ⟨"b", "R1", "approved", false⟩,
   ⟨"c", "R1", "approved", false⟩]

/-- Same three records, but the first one already has `exported = true`
(the spec's already-exported-group scenario). -/
def ussdScenarioExp : List URec :=
  [⟨"a", "R1", "approved", true⟩,
   ⟨"b", "R1", "approved", false⟩,
   ⟨"c", "R1", "approved", false⟩]

/-! ## Numbers channel: cursor pagination with page cache

`fetchNumbers` (`Dashboard.js` lines 151-197).  The store is a list of
`entries` documents in query order (`orderBy("phoneNumber")`); the query
filter is `exported == false`.  A recorded cursor is the index, within the
filtered ordered result set, of the last document of the page it was
recorded after (`startAfter(lastDoc)` resumes right after it). -/

structure NRec where
  id : Nat
  phoneNumber : String
  networkProvider : String
  exported : Bool
deriving DecidableEq

/-- Pagination state per channel: `numbersCache` (page ↦ rows, newest
binding first, as the JS object spread keeps one binding per key),
`numbersLastDocs` (cursor recorded after each page, array with holes) and
`hasMoreNumbers`. -/
structure PageState where
  cache : List (Nat × List NRec)
  lastDocs : List (Option Nat)
  hasMore : Bool
deriving DecidableEq

def initPageState : PageState := { cache := [], lastDocs := [], hasMore := true }

/-- `numbersCache[page]` lookup. -/
def lookupCache : List (Nat × List NRec) → Nat → Option (List NRec)
  | [], _ => none
  | (p, d) :: rest, q => if p = q then some d else lookupCache rest q

/-- `lastDocs[i]`, `none` for out-of-range or hole (both falsy in JS). -/
def getAt : List (Option Nat) → Nat → Option Nat
  | [], _ => none
  | x :: _, 0 => x
  | _ :: xs, i + 1 => getAt xs i

/-- `lastDocs[i] = v`, padding with holes like a JS array assignment. -/
def setAt : List (Option Nat) → Nat → Nat → List (Option Nat)
  | [], 0, v => [some v]
  | [], i + 1, v => none :: setAt [] i v
  | _ :: xs, 0, v => some v :: xs
  | x :: xs, i + 1, v => x :: setAt xs i v

structure FetchOut where
  state : PageState
  records : List NRec
  didFetch : Bool
deriving DecidableEq

/-- `fetchNumbers(page)` (`Dashboard.js` lines 151-197): serve `cache[page]`
if present (no store round-trip); otherwise run the filtered ordered query,
anchored with `startAfter(lastDocs[page-2])` when `page > 1` and that
cursor exists, `limit(pageSize)`; record the page in the cache, record the
new last-document cursor at `lastDocs[page-1]` when the page is nonempty,
and set `hasMore = (returned count == pageSize)`. -/
def fetchNumbers (store : List NRec) (page : Nat) (st : PageState) : FetchOut :=
  match lookupCache st.cache page with
  | some d => ⟨st, d, false⟩
  | none =>
    let pending := store.filter fun r => !r.exported
    let cursor : Option Nat := if 1 < page then getAt st.lastDocs (page - 2) else none
    let docs :=
      match cursor with
      | some i => (pending.drop (i + 1)).take pageSize
      | none => pending.take pageSize
    let lastIdx : Nat :=
      match cursor with
      | some i => i + docs.length
      | none => docs.length - 1
    let newLast := if 0 < docs.length then setAt st.lastDocs (page - 1) lastIdx else st.lastDocs
    ⟨{ cache := (page, docs) :: st.cache,
       lastDocs := newLast,
       hasMore := docs.length == pageSize }, docs, true⟩

/-! ## Numbers channel: chunked export (`handleDownloadNumbers`)

`Dashboard.js` lines 320-363: fetch up to `maxExportRecords` pending
documents, build Excel rows, commit `exported = true` in `writeBatch`
chunks of `batchSize`, generate the file, then clear the cache and cursor
list and refetch page 1.  The `catch` branch only sets an error message:
on a thrown commit the cache-clearing statements are never reached. -/

/-- One Excel row of the Numbers export (lines 330-333). -/
def numbersRow (r : NRec) : String × String :=
  (formatPhoneNumber r.phoneNumber,
   if r.networkProvider = "" then "N/A" else r.networkProvider)

/-- Slice a list into chunks of `batchSize`, as the export loop
`for (i = 0; i < docs.length; i += batchSize)` does.  The fuel argument
(instantiated with the list length) keeps the recursion structural. -/
def chunkFuel : Nat → List NRec → List (List NRec)
  | _, [] => []
  | 0, l => [l]
  | fuel + 1, l => l.take batchSize :: chunkFuel fuel (l.drop batchSize)

def chunkList (l : List NRec) : List (List NRec) := chunkFuel l.length l

/-- Outcome of one run of `handleDownloadNumbers`: the ids whose chunks
committed, the row list handed to `downloadExcel` (`none` when the
exception fired before file generation), whether the catch branch showed
an error, and the pagination state afterwards. -/
structure ExportNumbersOut where
  committedIds : List Nat
  fileRows : Option (List (String × String))
  errorShown : Bool
  state : PageState
deriving DecidableEq

/-- `handleDownloadNumbers` (`Dashboard.js` lines 320-363) with an explicit
failure point: `failAt = some k` (with `k` a valid chunk index) means the
`batch.commit()` of chunk `k` throws, so chunks `0..k-1` are committed and
control jumps to `catch`, leaving the cache, cursors and `hasMore` exactly
as they were.  Otherwise every chunk commits, the file is produced, and the
cache and cursor list are cleared (`setNumbersCache({})`,
`setNumbersLastDocs([])`, `setHasMoreNumbers(true)`) before the page-1
refetch.  The returned state is the one the subsequent `fetchNumbers(1)`
call observes. -/
def exportNumbersAttempt (store : List NRec) (st : PageState) (failAt : Option Nat) :
    ExportNumbersOut :=
  let docs := (store.filter fun r => !r.exported).take maxExportRecords
  let rows := docs.map numbersRow
  let chunks := chunkList docs
  match failAt with
  | some k =>
    if k < chunks.length then
      { committedIds := ((chunks.take k).flatten).map (·.id),
        fileRows := none,
        errorShown := true,
        state := st }
    else
      { committedIds := docs.map (·.id),
        fileRows := some rows,
        errorShown := false,
        state := { cache := [], lastDocs := [], hasMore := true } }
  | none =>
    { committedIds := docs.map (·.id),
      fileRows := some rows,
      errorShown := false,
      state := { cache := [], lastDocs := [], hasMore := true } }

/-- 501 pending `entries` documents: enough for two write chunks, so a
failure of the second chunk is a genuinely partial success. -/
def numbersStore501 : List NRec :=
  (List.range 501).map fun i => ⟨i, "", "", false⟩

/-- 13 pending `entries` documents (the pagination-boundary scenario). -/
def numbersStore13 : List NRec :=
  (List.range 13).map fun i => ⟨i, "", "", false⟩

/-- A store whose single document is already exported: zero eligible
records. -/
def numbersStoreEmpty : List NRec := [⟨0, "", "", true⟩]

/-! ## Realtime variant (`Dashboard.js` lines 1032-1117)

The second dashboard's `downloadExcel` on the `recent` tab: filter to
today's approved, unexported transactions; if none remain, `alert` and
return before any file or write; otherwise build the file and set
`exported: true` on every exported document. -/

structure RTRec where
  id : String
  status : String
  exported : Bool
  isToday : Bool
deriving DecidableEq

/-- Character-wise lower-casing (the JS `toLowerCase()` on status tags). -/
def lowerStr (s : String) : String := String.mk (s.data.map Char.toLower)

/-- The `recent`-tab eligibility filter (lines 1041-1050): a timestamp in
today's range, `status` lower-casing to `"approved"`, not yet exported. -/
def rtEligible (t : RTRec) : Bool :=
  t.isToday && (lowerStr t.status == "approved") && !t.exported

structure RTExportOut where
  writesIds : List String
  file : Option (List RTRec)
  alerted : Bool
deriving DecidableEq

/-- The realtime `downloadExcel` on the `recent` tab (lines 1032-1117),
with the rows-in/file-out serializer at the boundary: the produced file is
modelled by the record list handed to it. -/
def downloadExcelRecent (txs : List RTRec) : RTExportOut :=
  let dataToExport := txs.filter rtEligible
  if dataToExport.isEmpty then
    { writesIds := [], file := none, alerted := true }
  else
    { writesIds := dataToExport.map (·.id),
      file := some dataToExport,
      alerted := false }

/-! ## Helper lemmas -/

/-- Everything the dedup filter emits comes from its input list. -/
theorem mem_of_mem_uniqueTxAux {r : URec} :
    ∀ {seen : List String} {l : List URec}, r ∈ uniqueTxAux seen l → r ∈ l := by
  intro seen l
  induction l generalizing seen with
  | nil => intro h; exact absurd h (by simp [uniqueTxAux])
  | cons x xs ih =>
    intro h
    unfold uniqueTxAux at h
    by_cases hk : getKey x ∈ seen
    · rw [if_pos hk] at h
      exact List.mem_cons_of_mem _ (ih h)
    · rw [if_neg hk] at h
      rcases List.mem_cons.1 h with h1 | h2
      · exact h1 ▸ List.mem_cons_self _ _
      · exact List.mem_cons_of_mem _ (ih h2)

/-- Dropping digit characters skips a leading all-digit block. -/
theorem dropWhile_append_digits :
    ∀ (xs l : List Char), (∀ c ∈ xs, c.isDigit = true) →
      List.dropWhile Char.isDigit (xs ++ l) = List.dropWhile Char.isDigit l := by
  intro xs
  induction xs with
  | nil => intro l _; rfl
  | cons x xs' ih =>
    intro l hall
    rw [List.cons_append, List.dropWhile_cons_of_pos (hall x (List.mem_cons_self _ _))]
    exact ih l fun c hc => hall c (List.mem_cons_of_mem _ hc)

/-- Soundness of the `/(\d+)GB/` matcher: a successful capture is a
nonempty digit run that occurs in the input immediately followed by the
two characters `G`, `B`. -/
theorem gbMatch_sound :
    ∀ (l ds : List Char), gbMatch l = some ds →
      ds ≠ [] ∧ (∀ c ∈ ds, c.isDigit = true) ∧
        ∃ pre post, l = pre ++ (ds ++ 'G' :: 'B' :: post) := by
  intro l
  induction l with
  | nil => intro ds h; exact absurd h (by simp [gbMatch])
  | cons c cs ih =>
    intro ds h
    unfold gbMatch at h
    by_cases hcond :
        (c.isDigit && startsGB (List.dropWhile Char.isDigit (c :: cs))) = true
    · rw [if_pos hcond] at h
      rw [Bool.and_eq_true] at hcond
      obtain ⟨hd, hgb⟩ := hcond
      have hds : ds = List.takeWhile Char.isDigit (c :: cs) := by
        injection h with h'
        exact h'.symm
      subst hds
      refine ⟨?_, ?_, ?_⟩
      · rw [List.takeWhile_cons_of_pos hd]
        exact List.cons_ne_nil _ _
      · intro x hx
        exact List.mem_takeWhile_imp hx
      · cases hdw : List.dropWhile Char.isDigit (c :: cs) with
        | nil => rw [hdw] at hgb; exact absurd hgb (by simp [startsGB])
        | cons g tl =>
          cases tl with
          | nil => rw [hdw] at hgb; exact absurd hgb (by simp [startsGB])
          | cons b rest =>
            rw [hdw] at hgb
            simp only [startsGB, Bool.and_eq_true, beq_iff_eq] at hgb
            obtain ⟨hg, hb⟩ := hgb
            subst hg; subst hb
            refine ⟨[], rest, ?_⟩
            conv_lhs => rw [← List.takeWhile_append_dropWhile (p := Char.isDigit) (l := c :: cs)]
            rw [hdw, List.nil_append]
    · rw [if_neg hcond] at h
      obtain ⟨hne, hdig, pre, post, hpre⟩ := ih ds h
      exact ⟨hne, hdig, c :: pre, post, by simp [hpre]⟩

/-- Completeness of the `/(\d+)GB/` matcher: whenever a nonempty digit run
immediately followed by `G`, `B` occurs anywhere in the input, the matcher
finds a capture. -/
theorem gbMatch_complete :
    ∀ (pre ds post : List Char), ds ≠ [] → (∀ c ∈ ds, c.isDigit = true) →
      gbMatch (pre ++ (ds ++ 'G' :: 'B' :: post)) ≠ none := by
  intro pre
  induction pre with
  | nil =>
    intro ds post hne hdig
    cases ds with
    | nil => exact absurd rfl hne
    | cons d ds' =>
      have hd : d.isDigit = true := hdig d (List.mem_cons_self _ _)
      have hdrop :
          List.dropWhile Char.isDigit (d :: (ds' ++ 'G' :: 'B' :: post))
            = 'G' :: 'B' :: post := by
        rw [← List.cons_append, dropWhile_append_digits (d :: ds') _ hdig]
        exact List.dropWhile_cons_of_neg (by decide)
      show gbMatch (d :: (ds' ++ 'G' :: 'B' :: post)) ≠ none
      simp only [gbMatch]
      rw [hdrop, hd]
      simp [startsGB]
  | cons x pre' ih =>
    intro ds post hne hdig
    show gbMatch (x :: (pre' ++ (ds ++ 'G' :: 'B' :: post))) ≠ none
    simp only [gbMatch]
    by_cases hcond :
        (x.isDigit && startsGB
          (List.dropWhile Char.isDigit (x :: (pre' ++ (ds ++ 'G' :: 'B' :: post))))) = true
    · rw [if_pos hcond]; simp
    · rw [if_neg hcond]
      exact ih ds post hne hdig

/-! ## Claim theorems -/

/-- C6: `formatPhoneNumber` maps `"233549856098"` to `"0549856098"`,
`"0549856098"` to itself and `""` to `"N/A"`; it strips one literal
leading `"233"` prefix (`strip233`) and prepends `"0"` exactly when the
stripped number is nine characters long, one short of the ten-digit
national length. -/
theorem formatPhoneNumber_normalization :
    formatPhoneNumber "233549856098" = "0549856098" ∧
    formatPhoneNumber "0549856098" = "0549856098" ∧
    formatPhoneNumber "" = "N/A" ∧
    ∀ s : String,
      (formatPhoneNumber s = "0" ++ strip233 s ↔ (strip233 s).length = 9) := by
  refine ⟨by decide, by decide, by decide, fun s => ?_⟩
  by_cases hs : s = ""
  · subst hs; decide
  · unfold formatPhoneNumber
    rw [if_neg hs]
    by_cases h9 : (strip233 s).length = 9
    · simp [h9]
    · rw [if_neg h9]
      by_cases hc : strip233 s = ""
      · rw [if_pos hc]
        constructor
        · intro h
          rw [hc] at h
          exact absurd h (by decide)
        · intro h; exact absurd h h9
      · rw [if_neg hc]
        constructor
        · intro h
          have hlen := congrArg String.length h
          rw [String.length_append] at hlen
          have h1 : ("0" : String).length = 1 := rfl
          rw [h1] at hlen
          omega
        · intro h; exact absurd h h9

/-- C10: `formatPhoneNumber` strips at most one leading `"233"` per
application and is therefore not idempotent: on `"233233549856098"` one
application yields `"233549856098"`, a second yields `"0549856098"`. -/
theorem formatPhoneNumber_not_idempotent :
    formatPhoneNumber "233233549856098" = "233549856098" ∧
    formatPhoneNumber (formatPhoneNumber "233233549856098") = "0549856098" ∧
    formatPhoneNumber (formatPhoneNumber "233233549856098")
      ≠ formatPhoneNumber "233233549856098" := by decide

/-- C7 counterexample: the claim says the plan-size extraction matches the
`GB` suffix case-insensitively, but `Dashboard.js`'s `extractGB` uses the
case-sensitive `/(\d+)GB/` (so `"Daily 2gb Bundle"` yields `"N/A"`, not
`"2"`), and `part_000`'s variant takes the first digit with no suffix test
at all (so `"about 200MB data"` yields `"2"`, not `"N/A"`). -/
theorem extractGB_not_case_insensitive :
    extractGB "Daily 2gb Bundle" = "N/A" ∧
    specExtractGB "Daily 2gb Bundle" = "2" ∧
    extractGB "Daily 2gb Bundle" ≠ specExtractGB "Daily 2gb Bundle" ∧
    extractGBFirstDigit "about 200MB data" = "2" ∧
    specExtractGB "about 200MB data" = "N/A" ∧
    extractGBFirstDigit "about 200MB data" ≠ specExtractGB "about 200MB data" := by
  decide

/-- C7 amended: `Dashboard.js`'s `extractGB` returns the digits of the
leftmost maximal digit run immediately followed by the literal uppercase
`"GB"` (case-sensitively), and `"N/A"` exactly when no such run occurs;
`part_000`'s variant returns just the first digit character.  Both map
`"Daily 2GB Bundle"` to `"2"` and `"No size info"` to `"N/A"`. -/
theorem extractGB_characterization :
    (extractGB "Daily 2GB Bundle" = "2" ∧ extractGB "No size info" = "N/A" ∧
      extractGBFirstDigit "Daily 2GB Bundle" = "2" ∧
      extractGBFirstDigit "No size info" = "N/A") ∧
    (∀ (l ds : List Char), gbMatch l = some ds →
      ds ≠ [] ∧ (∀ c ∈ ds, c.isDigit = true) ∧
        ∃ pre post, l = pre ++ (ds ++ 'G' :: 'B' :: post)) ∧
    (∀ (pre ds post : List Char), ds ≠ [] → (∀ c ∈ ds, c.isDigit = true) →
      gbMatch (pre ++ (ds ++ 'G' :: 'B' :: post)) ≠ none) := by
  exact ⟨⟨by decide, by decide, by decide, by decide⟩, gbMatch_sound, gbMatch_complete⟩

/-- C7 witness: the characterization applied at concrete inputs. -/
theorem extractGB_characterization_witness :
    gbMatch ('x' :: '2' :: 'G' :: 'B' :: []) ≠ none ∧ (['2'] : List Char) ≠ [] := by
  refine ⟨extractGB_characterization.2.2 ['x'] ['2'] [] (by decide) (by decide), ?_⟩
  exact (extractGB_characterization.2.1 ('2' :: 'G' :: 'B' :: []) ['2'] (by decide)).1

/-- C3 counterexample: the dedup filter `uniqueTx` keeps the first-seen
record per key without inspecting `exported`; on three records sharing
`externalRef = "R1"` whose first has `exported = true`, the output is
exactly that exported record — a group member with `exported == true`,
and the group is not excluded. -/
theorem uniqueTx_emits_exported_member :
    uniqueTx ussdScenarioExp = [⟨"a", "R1", "approved", true⟩] ∧
    (URec.mk "a" "R1" "approved" true) ∈ uniqueTx ussdScenarioExp ∧
    (URec.mk "a" "R1" "approved" true).exported = true := by decide

/-- C3 amended: exclusion of exported records is member-level, not
group-level.  `uniqueTx` only ever emits records of its input, so on
input pre-filtered to `exported == false` (as the store query guarantees)
no emitted record has `exported == true`; but when an exported member of
a key group is removed upstream, the remaining members still emit a
representative — the group as a whole is not suppressed. -/
theorem uniqueTx_member_level_exclusion :
    (∀ (l : List URec) (r : URec), r ∈ uniqueTx l → r ∈ l) ∧
    (∀ l : List URec, (∀ r ∈ l, r.exported = false) →
      ∀ r ∈ uniqueTx l, r.exported = false) ∧
    uniqueTx (ussdScenarioExp.filter fun r => !r.exported)
      = [⟨"b", "R1", "approved", false⟩] := by
  exact ⟨fun l r h => mem_of_mem_uniqueTxAux h,
    fun l hall r hr => hall r (mem_of_mem_uniqueTxAux hr),
    by decide⟩

/-- C3 witness: the member-level invariant applied at a concrete
unexported input list. -/
theorem uniqueTx_member_level_exclusion_witness :
    (URec.mk "b" "R1" "approved" false) ∈ [URec.mk "b" "R1" "approved" false] ∧
    (URec.mk "b" "R1" "approved" false).exported = false := by
  refine ⟨?_, ?_⟩
  · exact uniqueTx_member_level_exclusion.1
      [URec.mk "b" "R1" "approved" false] (URec.mk "b" "R1" "approved" false) (by decide)
  · exact uniqueTx_member_level_exclusion.2.1
      [URec.mk "b" "R1" "approved" false] (by decide)
      (URec.mk "b" "R1" "approved" false) (by decide)

/-- C1: the id set flagged by `handleDownloadUssd` is the ids of every
fetched pending document, so it contains every underlying document id of
every member of every group of the export batch — in particular, for the
three raw records sharing `correlationKey "R1"` that form one eligible
group, the export flags all three underlying ids. -/
theorem ussdExport_flags_all_group_members :
    (∀ (store : List URec) (g : String × List URec) (r : URec),
      g ∈ groupsOf (exportUssdDocs store) → r ∈ g.2 →
      r.id ∈ exportUssdFlagged store) ∧
    exportUssdFlagged ussdScenario = ["a", "b", "c"] ∧
    (groupsOf (exportUssdDocs ussdScenario)).length = 1 := by
  refine ⟨?_, by decide, by decide⟩
  intro store g r hg hr
  unfold groupsOf at hg
  rcases List.mem_map.1 hg with ⟨k, _, rfl⟩
  have hmem : r ∈ exportUssdDocs store := List.mem_of_mem_filter hr
  exact List.mem_map.2 ⟨r, hmem, rfl⟩

/-- C1 witness: a non-representative duplicate's id is among the flagged
ids in the duplicate-collapse scenario. -/
theorem ussdExport_flags_all_group_members_witness :
    ("b" : String) ∈ exportUssdFlagged ussdScenario :=
  ussdExport_flags_all_group_members.1 ussdScenario
    ("R1", (exportUssdDocs ussdScenario).filter fun r => getKey r == "R1")
    ⟨"b", "R1", "approved", false⟩ (by decide) (by decide)

/-- C2: on the duplicate-collapse scenario (three raw pending records, one
logical group) `openConfirmDialog` sets the dialog's `recordCount` to the
raw fetched row count 3, not the deduplicated group count 1 — the source
skips the Deduplication Engine that the spec mandates for all user-facing
counts. -/
theorem openConfirmCount_is_raw_row_count :
    openConfirmCountUssd ussdScenario = 3 ∧
    (groupsOf (exportUssdDocs ussdScenario)).length = 1 ∧
    openConfirmCountUssd ussdScenario
      ≠ (groupsOf (exportUssdDocs ussdScenario)).length := by decide

set_option maxRecDepth 10000 in
/-- C4: on a partially-successful export (501 pending documents, the
second write chunk's `commit()` throws after the first chunk flagged 500),
`handleDownloadNumbers` jumps to `catch` without reaching the
cache-clearing statements: the page cache is left intact, and the next
`fetchNumbers(1)` serves the stale cached page instead of issuing a real
fetch. -/
theorem exportNumbers_partial_failure_keeps_cache :
    ((numbersStore501.filter fun r => !r.exported).take maxExportRecords).length = 501 ∧
    (exportNumbersAttempt numbersStore501
        (fetchNumbers numbersStore501 1 initPageState).state
        (some 1)).committedIds.length = 500 ∧
    (exportNumbersAttempt numbersStore501
        (fetchNumbers numbersStore501 1 initPageState).state
        (some 1)).errorShown = true ∧
    (exportNumbersAttempt numbersStore501
        (fetchNumbers numbersStore501 1 initPageState).state
        (some 1)).state
      = (fetchNumbers numbersStore501 1 initPageState).state ∧
    (fetchNumbers numbersStore501 1
      (exportNumbersAttempt numbersStore501
        (fetchNumbers numbersStore501 1 initPageState).state
        (some 1)).state).didFetch = false := by
  decide

/-- C5: with zero eligible records, `handleDownloadNumbers` performs no
writes but still calls `downloadExcel` with an empty row list — a file is
produced — and shows no message; only the realtime variant's
`downloadExcel` aborts with an alert, no file and no writes. -/
theorem emptyExport_still_produces_file :
    (exportNumbersAttempt numbersStoreEmpty initPageState none).committedIds = [] ∧
    (exportNumbersAttempt numbersStoreEmpty initPageState none).fileRows = some [] ∧
    (exportNumbersAttempt numbersStoreEmpty initPageState none).fileRows ≠ none ∧
    (exportNumbersAttempt numbersStoreEmpty initPageState none).errorShown = false ∧
    downloadExcelRecent [⟨"t1", "approved", true, true⟩]
      = { writesIds := [], file := none, alerted := true } := by decide

/-- C8: with page size 6 and exactly 13 eligible records, fetching pages
1, 2, 3 in order returns 6, 6 and 1 records, and after each fetch
`hasMore` equals `(returned count == pageSize)`: `true`, `true`,
`false`. -/
theorem fetchNumbers_pagination_boundary (store : List NRec)
    (h : (store.filter fun r => !r.exported).length = 13) :
    ((fetchNumbers store 1 initPageState).records.length = 6 ∧
      (fetchNumbers store 1 initPageState).state.hasMore = true) ∧
    ((fetchNumbers store 2 (fetchNumbers store 1 initPageState).state).records.length = 6 ∧
      (fetchNumbers store 2
        (fetchNumbers store 1 initPageState).state).state.hasMore = true) ∧
    ((fetchNumbers store 3 (fetchNumbers store 2
        (fetchNumbers store 1 initPageState).state).state).records.length = 1 ∧
      (fetchNumbers store 3 (fetchNumbers store 2
        (fetchNumbers store 1 initPageState).state).state).state.hasMore = false) := by
  have t1 : ((store.filter fun r => !r.exported).take pageSize).length = 6 := by
    rw [List.length_take, h]; decide
  have e1 : fetchNumbers store 1 initPageState =
      ⟨⟨[(1, (store.filter fun r => !r.exported).take pageSize)], [some 5], true⟩,
        (store.filter fun r => !r.exported).take pageSize, true⟩ := by
    unfold fetchNumbers
    simp [initPageState, lookupCache, setAt, pageSize, h]
  have t2 : (((store.filter fun r => !r.exported).drop 6).take pageSize).length = 6 := by
    rw [List.length_take, List.length_drop, h]; decide
  have e2 : fetchNumbers store 2 (fetchNumbers store 1 initPageState).state =
      ⟨⟨[(2, ((store.filter fun r => !r.exported).drop 6).take pageSize),
          (1, (store.filter fun r => !r.exported).take pageSize)],
         [some 5, some 11], true⟩,
        ((store.filter fun r => !r.exported).drop 6).take pageSize, true⟩ := by
    rw [e1]
    unfold fetchNumbers
    simp [lookupCache, getAt, setAt, pageSize, h]
  have t3 : (((store.filter fun r => !r.exported).drop 12).take pageSize).length = 1 := by
    rw [List.length_take, List.length_drop, h]; decide
  have e3 : fetchNumbers store 3 (fetchNumbers store 2
        (fetchNumbers store 1 initPageState).state).state =
      ⟨⟨[(3, ((store.filter fun r => !r.exported).drop 12).take pageSize),
          (2, ((store.filter fun r => !r.exported).drop 6).take pageSize),
          (1, (store.filter fun r => !r.exported).take pageSize)],
         [some 5, some 11, some 12], false⟩,
        ((store.filter fun r => !r.exported).drop 12).take pageSize, true⟩ := by
    rw [e2]
    unfold fetchNumbers
    simp [lookupCache, getAt, setAt, pageSize, h]
  rw [e3, e2, e1]
  exact ⟨⟨t1, rfl⟩, ⟨t2, rfl⟩, ⟨t3, rfl⟩⟩

/-- C8 witness: the boundary scenario at a concrete 13-record store. -/
theorem fetchNumbers_pagination_boundary_witness :
    (numbersStore13.filter fun r => !r.exported).length = 13 ∧
    (fetchNumbers numbersStore13 1 initPageState).records.length = 6 := by
  refine ⟨by decide, ?_⟩
  exact (fetchNumbers_pagination_boundary numbersStore13 (by decide)).1.1

/-- C9 counterexample: `fetchNumbers` does not require the preceding
cursor — on a fresh state with no cursors recorded, requesting page 3
still issues a query (the unanchored base query) and returns the first
page's six records instead of failing. -/
theorem fetchNumbers_jump_without_cursor_not_rejected :
    (fetchNumbers numbersStore13 3 initPageState).didFetch = true ∧
    (fetchNumbers numbersStore13 3 initPageState).records
      = (fetchNumbers numbersStore13 1 initPageState).records ∧
    (fetchNumbers numbersStore13 3 initPageState).records.length = 6 := by decide

/-- C9 amended: for an uncached page `n > 1`, when `cursors[n-1]`
(`lastDocs[n-2]`) exists the query is anchored right after it with the
fixed page size; when it is absent the code does not reject the request
but silently falls back to the unanchored base query, returning the first
page's rows — so arbitrary random-access jumps return wrong data rather
than being refused. -/
theorem fetchNumbers_cursor_chain (store : List NRec) (st : PageState) (n : Nat)
    (hm : lookupCache st.cache n = none) (hn : 1 < n) :
    (∀ i, getAt st.lastDocs (n - 2) = some i →
      (fetchNumbers store n st).records
        = ((store.filter fun r => !r.exported).drop (i + 1)).take pageSize ∧
      (fetchNumbers store n st).didFetch = true) ∧
    (getAt st.lastDocs (n - 2) = none →
      (fetchNumbers store n st).records
        = (store.filter fun r => !r.exported).take pageSize ∧
      (fetchNumbers store n st).didFetch = true) := by
  constructor
  · intro i hi
    unfold fetchNumbers
    rw [hm]
    simp [hn, hi]
  · intro hi
    unfold fetchNumbers
    rw [hm]
    simp [hn, hi]

/-- C9 witness: the anchored query at a concrete state holding the cursor
recorded after page 1. -/
theorem fetchNumbers_cursor_chain_witness :
    (fetchNumbers numbersStore13 2
        { cache := [], lastDocs := [some 5], hasMore := true }).records
      = ((numbersStore13.filter fun r => !r.exported).drop 6).take pageSize := by
  exact ((fetchNumbers_cursor_chain numbersStore13
      { cache := [], lastDocs := [some 5], hasMore := true } 2
      (by decide) (by decide)).1 5 (by decide)).1

end RickyDashboard
